import Mathlib

/-!
Shallow embedding of the concurrent load-generation engine of the
`cli-client` repository (src/ui.py, src/flight_client.py, src/load_tester.py,
src/cli.py, src/load_test.py), together with theorems settling the spec
claims about it.

Durations are embedded as rationals (`ℚ`), row and byte counts as naturals.
Python's `int(n * 0.95)` truncation of a non-negative product is embedded as
natural-number floor division `n * 95 / 100`.
-/

/-- Embeds `QueryMetrics` from src/ui.py: one request outcome, with the same
fields and the same defaults (`status = "Pending"`, zero latencies, no error). -/
structure QueryMetrics where
  tenant_id : String
  dataset : String
  rows : ℕ := 0
  bytes : ℕ := 0
  metadata_latency_ms : ℚ := 0
  transfer_latency_ms : ℚ := 0
  total_latency_ms : ℚ := 0
  status : String := "Pending"
  error : Option String := none
deriving Repr, DecidableEq

/-- Embeds `LoadTestResult` from src/load_tester.py (the dataclass holding the
final aggregate of a run). -/
structure LoadTestResult where
  total_requests : ℕ
  successful : ℕ
  failed : ℕ
  total_rows : ℕ
  total_bytes : ℕ
  duration_s : ℚ
  avg_latency_ms : ℚ
  p95_latency_ms : ℚ
  results : List QueryMetrics
deriving Repr, DecidableEq

/-- Embeds the percentile index computation `int(len(latencies) * p)` used at
src/load_tester.py line 87 (`p = 0.95`) and src/load_test.py lines 79-81
(`p ∈ \x7b0.90, 0.95, 0.99\x7d`): the percentile is given as `p_num / 100` and the
truncated product is natural floor division. -/
def percentileIndex (p_num n : ℕ) : ℕ :=
  n * p_num / 100

/-- Embeds `LoadTester._calculate_metrics` from src/load_tester.py lines 76-99:
partition the recorded samples by `status == "Success"`, sort the successful
total latencies ascending, and derive sums, mean and the p95 nearest-rank
percentile, with zero values when there is no successful sample. -/
def calculate_metrics (results : List QueryMetrics) (duration : ℚ) : LoadTestResult :=
  let successful := results.filter (fun r => r.status == "Success")
  let failed := results.filter (fun r => r.status != "Success")
  let latencies := (successful.map (fun r => r.total_latency_ms)).insertionSort (· ≤ ·)
  let total_rows := (successful.map (fun r => r.rows)).sum
  let total_bytes := (successful.map (fun r => r.bytes)).sum
  let avg_latency := if latencies.isEmpty then 0 else latencies.sum / (latencies.length : ℚ)
  let p95_latency := if latencies.isEmpty then 0
    else latencies.getD (percentileIndex 95 latencies.length) 0
  { total_requests := results.length
    successful := successful.length
    failed := failed.length
    total_rows := total_rows
    total_bytes := total_bytes
    duration_s := duration
    avg_latency_ms := avg_latency
    p95_latency_ms := p95_latency
    results := results }

/-- Embeds the behaviour of the backend during one `query_dataset` call in
src/flight_client.py lines 56-93: either `get_flight_info` raises (`metaFail`),
or it succeeds and the `do_get`/`read_all` phase raises (`transferFail`), or
both phases succeed (`ok`). Latencies are the elapsed times measured by the
caller around each phase. -/
inductive BackendBehavior where
  | metaFail (err : String)
  | transferFail (metaLat : ℚ) (err : String)
  | ok (metaLat transferLat : ℚ) (rows bytes : ℕ)
deriving Repr, DecidableEq

/-- The behaviour is a backend failure (some phase raised). -/
def BackendBehavior.isFailure : BackendBehavior → Bool
  | .metaFail _ => true
  | .transferFail _ _ => true
  | .ok _ _ _ _ => false

/-- The error string carried by a failing behaviour. -/
def BackendBehavior.errorMsg : BackendBehavior → Option String
  | .metaFail err => some err
  | .transferFail _ err => some err
  | .ok _ _ _ _ => none

/-- The elapsed times recorded for the behaviour are non-negative, as delivered
by the monotonic clock (`time.perf_counter`) in src/flight_client.py. -/
def BackendBehavior.wellTimed : BackendBehavior → Prop
  | .metaFail _ => True
  | .transferFail metaLat _ => 0 ≤ metaLat
  | .ok metaLat transferLat _ _ => 0 ≤ metaLat ∧ 0 ≤ transferLat

instance : DecidablePred BackendBehavior.wellTimed := by
  intro b
  cases b <;> simp [BackendBehavior.wellTimed] <;> infer_instance

/-- Embeds `ArrowFlightClient.query_dataset` from src/flight_client.py lines
56-93: a `QueryMetrics` is created with the tenant and dataset, each phase
fills in its latency on success, any exception is caught and turned into
`status = "Error"` with the error string, and in every case
`total_latency_ms` is set to `metadata_latency_ms + transfer_latency_ms`
before returning. -/
def query_dataset (tenant_id dataset : String) (b : BackendBehavior) : QueryMetrics :=
  let m0 : QueryMetrics := { tenant_id := tenant_id, dataset := dataset }
  let m1 := match b with
    | .metaFail err =>
        { m0 with status := "Error", error := some err }
    | .transferFail metaLat err =>
        { m0 with metadata_latency_ms := metaLat, status := "Error", error := some err }
    | .ok metaLat transferLat rows bytes =>
        { m0 with metadata_latency_ms := metaLat, transfer_latency_ms := transferLat,
                  rows := rows, bytes := bytes, status := "Success" }
  { m1 with total_latency_ms := m1.metadata_latency_ms + m1.transfer_latency_ms }

/-- Models the Arrow Flight gateway as seen by one run: whether the health
probe (`ArrowFlightClient.check_health`, src/flight_client.py lines 21-29)
finds it reachable, and the backend behaviour each dispatched unit observes
during its own `query_dataset` call. -/
structure Gateway where
  healthy : Bool
  behavior : ℕ → BackendBehavior

/-- Embeds `ArrowFlightClient.check_health` from src/flight_client.py lines
21-29: returns whether the gateway is reachable. -/
def check_health (gw : Gateway) : Bool :=
  gw.healthy

/-- Embeds the round-robin tenant assignment `tenants[i % len(tenants)]` of
src/load_tester.py line 64 for unit `i`. -/
def assignedTenant (tenants : List String) (i : ℕ) : String :=
  tenants.getD (i % tenants.length) ""

/-- Embeds `LoadTester._single_request` from src/load_tester.py lines 32-44 for
unit `i`: open a fresh client and run `query_dataset`; the returned sample is
appended to the shared results list. -/
def single_request (gw : Gateway) (i : ℕ) (tenant dataset : String) : QueryMetrics :=
  query_dataset tenant dataset (gw.behavior i)

/-- Embeds `LoadTester.run_load_test` from src/load_tester.py lines 46-74:
dispatch `total_requests` independent units, unit `i` querying tenant
`tenants[i % len(tenants)]`, wait for all of them, and compute the final
metrics over the collected samples. The collection is embedded in dispatch
order; order-independence of the statistics is proved separately. -/
def run_load_test (gw : Gateway) (total_requests : ℕ) (tenants : List String)
    (dataset : String) (duration : ℚ) : LoadTestResult :=
  let results := (List.range total_requests).map
    (fun i => single_request gw i (assignedTenant tenants i) dataset)
  calculate_metrics results duration

/-- Outcome of the `load-test` CLI command: either an upfront connectivity
error, or a completed run's aggregate. -/
inductive CliOutcome where
  | connectivityError
  | completed (result : LoadTestResult)
deriving Repr, DecidableEq

/-- Embeds `cmd_load_test` from src/cli.py lines 39-65: it builds the tenant
list, constructs a `LoadTester` and calls `run_load_test` directly; no health
probe is consulted, so the run always starts. -/
def cmd_load_test (gw : Gateway) (requests : ℕ) (tenants : List String)
    (dataset : String) (duration : ℚ) : CliOutcome :=
  CliOutcome.completed (run_load_test gw requests tenants dataset duration)

/-- Number of samples recorded by the aggregator for a given CLI outcome. -/
def dispatchCount : CliOutcome → ℕ
  | .connectivityError => 0
  | .completed r => r.results.length

/-- Embeds `DatasetResponse` as used in src/load_test.py (lines 160-164 and
230-250); the class itself lives in the `app_cli` package outside src/, so the
fields are the ones src constructs and reads. -/
structure DatasetResponse where
  request_id : String
  status : String
  error_message : Option String := none
deriving Repr, DecidableEq

/-- Models the Enrutador backend used by src/load_test.py: whether the health
probe finds it reachable, and the response each (user, request) pair obtains.
The probe itself is modelled from the spec: `APIClient.health_check` (from
`app_cli`, not under src/) is "a cheap synchronous call returning
reachability". -/
structure Enrutador where
  healthy : Bool
  respond : ℕ → ℕ → DatasetResponse

/-- Embeds `worker_thread` from src/load_test.py lines 116-166: user
`user_id` performs `requests_per_user` requests in order; each iteration
appends exactly one response because any exception is caught and converted
into an error `DatasetResponse`. -/
def worker_thread (e : Enrutador) (user_id requests_per_user : ℕ) : List DatasetResponse :=
  (List.range requests_per_user).map (fun i => e.respond user_id i)

/-- Outcome of `main` in src/load_test.py: an upfront connectivity error, or
the list of responses collected from all workers. -/
inductive MainOutcome where
  | connectivityError
  | completed (responses : List DatasetResponse)
deriving Repr, DecidableEq

/-- Embeds the control flow of `main` in src/load_test.py lines 344-355: the
health probe is consulted first, and on failure the process exits with a
connectivity error before any worker is submitted; otherwise all users run and
their responses are collected. -/
def load_test_main (e : Enrutador) (concurrent_users requests_per_user : ℕ) : MainOutcome :=
  if e.healthy then
    MainOutcome.completed
      ((List.range concurrent_users).flatMap (fun u => worker_thread e u requests_per_user))
  else
    MainOutcome.connectivityError

/-- A gateway whose health probe reports it unreachable and whose every
request fails with a connectivity error, as when nothing listens at the URI. -/
def badGateway : Gateway :=
  { healthy := false, behavior := fun _ => BackendBehavior.metaFail "gateway unreachable" }

/-- A gateway that is reachable and answers every request successfully with
the given per-unit transfer latency, 100 rows and 1000 bytes. -/
def okGateway (lat : ℕ → ℚ) : Gateway :=
  { healthy := true, behavior := fun i => BackendBehavior.ok 0 (lat i) 100 1000 }

/-- A successful sample as produced by `query_dataset` on a healthy backend
with zero metadata latency and the given transfer latency. -/
def sampleOk (lat : ℚ) : QueryMetrics :=
  query_dataset "t1" "sales" (BackendBehavior.ok 0 lat 100 1000)

/-- A failed sample as produced by `query_dataset` when the metadata phase
raises. -/
def sampleErr : QueryMetrics :=
  query_dataset "t1" "sales" (BackendBehavior.metaFail "unavailable")

/-- Sorting by the reflexive order is invariant under permutation of the
input: a permutation sorts to the same ascending list. -/
theorem insertionSort_eq_of_perm (l₁ l₂ : List ℚ) (h : l₁.Perm l₂) :
    l₁.insertionSort (· ≤ ·) = l₂.insertionSort (· ≤ ·) :=
  List.eq_of_perm_of_sorted
    (((l₁.perm_insertionSort _).trans h).trans (l₂.perm_insertionSort _).symm)
    (l₁.sorted_insertionSort _) (l₂.sorted_insertionSort _)

/-- C1: for every completed run, the aggregate's total equals successful plus
failed, and the total equals the number of dispatched units: each of the
`total_requests` submitted units contributes exactly one sample to the
collection partitioned by `calculate_metrics`, none dropped, none doubled. -/
theorem run_total_eq_successful_add_failed (gw : Gateway) (total_requests : ℕ)
    (tenants : List String) (dataset : String) (duration : ℚ)
    (h : tenants ≠ []) :
    (run_load_test gw total_requests tenants dataset duration).total_requests =
      (run_load_test gw total_requests tenants dataset duration).successful +
        (run_load_test gw total_requests tenants dataset duration).failed ∧
    (run_load_test gw total_requests tenants dataset duration).total_requests =
      total_requests ∧
    (run_load_test gw total_requests tenants dataset duration).results.length =
      total_requests := by
  refine ⟨?_, by simp [run_load_test, calculate_metrics],
    by simp [run_load_test, calculate_metrics]⟩
  simp only [run_load_test, calculate_metrics]
  rw [List.length_eq_length_filter_add (fun r : QueryMetrics => r.status == "Success")]
  rfl

/-- Witness for C1 at a concrete run: 3 requests over two tenants against a
healthy gateway. -/
theorem run_total_eq_successful_add_failed_witness :
    (run_load_test (okGateway (fun _ => 5)) 3 ["t1", "t2"] "sales" 1).total_requests =
      (run_load_test (okGateway (fun _ => 5)) 3 ["t1", "t2"] "sales" 1).successful +
        (run_load_test (okGateway (fun _ => 5)) 3 ["t1", "t2"] "sales" 1).failed ∧
    (run_load_test (okGateway (fun _ => 5)) 3 ["t1", "t2"] "sales" 1).total_requests = 3 ∧
    (run_load_test (okGateway (fun _ => 5)) 3 ["t1", "t2"] "sales" 1).results.length = 3 :=
  run_total_eq_successful_add_failed (okGateway (fun _ => 5)) 3 ["t1", "t2"] "sales" 1
    (by decide)

/-- C4: under per-request round-robin, dispatched unit `i` queries tenant
`tenants[i % len(tenants)]`; with 10 requests over tenants `t1, t2`, the units
at indices 0,2,4,6,8 go to `t1` and those at 1,3,5,7,9 go to `t2`, five
each. -/
theorem round_robin_assignment (gw : Gateway) (total_requests i : ℕ)
    (tenants : List String) (dataset : String) (duration : ℚ)
    (h : tenants ≠ []) (hi : i < total_requests) :
    (run_load_test gw total_requests tenants dataset duration).results[i]? =
      some (query_dataset (tenants.getD (i % tenants.length) "") dataset (gw.behavior i)) ∧
    (List.range 10).filter (fun j => assignedTenant ["t1", "t2"] j == "t1") =
      [0, 2, 4, 6, 8] ∧
    (List.range 10).filter (fun j => assignedTenant ["t1", "t2"] j == "t2") =
      [1, 3, 5, 7, 9] ∧
    ((List.range 10).filter (fun j => assignedTenant ["t1", "t2"] j == "t1")).length = 5 ∧
    ((List.range 10).filter (fun j => assignedTenant ["t1", "t2"] j == "t2")).length = 5 := by
  refine ⟨?_, by decide, by decide, by decide, by decide⟩
  simp [run_load_test, calculate_metrics, single_request, assignedTenant,
    List.getElem?_map, List.getElem?_range, hi]

/-- Witness for C4: the third of ten units over two tenants queries `t1`. -/
theorem round_robin_assignment_witness :
    (run_load_test (okGateway (fun _ => 5)) 10 ["t1", "t2"] "sales" 1).results[2]? =
      some (query_dataset (["t1", "t2"].getD (2 % 2) "") "sales"
        ((okGateway (fun _ => 5)).behavior 2)) ∧
    (List.range 10).filter (fun j => assignedTenant ["t1", "t2"] j == "t1") =
      [0, 2, 4, 6, 8] ∧
    (List.range 10).filter (fun j => assignedTenant ["t1", "t2"] j == "t2") =
      [1, 3, 5, 7, 9] ∧
    ((List.range 10).filter (fun j => assignedTenant ["t1", "t2"] j == "t1")).length = 5 ∧
    ((List.range 10).filter (fun j => assignedTenant ["t1", "t2"] j == "t2")).length = 5 :=
  round_robin_assignment (okGateway (fun _ => 5)) 10 2 ["t1", "t2"] "sales" 1
    (by decide) (by decide)

/-- C5: the statistics computed by `calculate_metrics` — successful and failed
counts, total rows, total bytes, average latency and p95 latency — are
invariant under any permutation of the order in which the samples were
recorded. -/
theorem finalize_perm_invariant (l₁ l₂ : List QueryMetrics) (duration : ℚ)
    (h : l₁.Perm l₂) :
    (calculate_metrics l₁ duration).successful = (calculate_metrics l₂ duration).successful ∧
    (calculate_metrics l₁ duration).failed = (calculate_metrics l₂ duration).failed ∧
    (calculate_metrics l₁ duration).total_rows = (calculate_metrics l₂ duration).total_rows ∧
    (calculate_metrics l₁ duration).total_bytes = (calculate_metrics l₂ duration).total_bytes ∧
    (calculate_metrics l₁ duration).avg_latency_ms =
      (calculate_metrics l₂ duration).avg_latency_ms ∧
    (calculate_metrics l₁ duration).p95_latency_ms =
      (calculate_metrics l₂ duration).p95_latency_ms := by
  have hs := h.filter (fun r : QueryMetrics => r.status == "Success")
  have hf := h.filter (fun r : QueryMetrics => r.status != "Success")
  have hlat : ((l₁.filter (fun r => r.status == "Success")).map
        (fun r => r.total_latency_ms)).insertionSort (· ≤ ·) =
      ((l₂.filter (fun r => r.status == "Success")).map
        (fun r => r.total_latency_ms)).insertionSort (· ≤ ·) :=
    insertionSort_eq_of_perm _ _ (hs.map _)
  refine ⟨hs.length_eq, hf.length_eq, ((hs.map _).sum_eq), ((hs.map _).sum_eq), ?_, ?_⟩ <;>
    simp only [calculate_metrics, hlat]

/-- Witness for C5 on a concrete multiset recorded in two different orders. -/
theorem finalize_perm_invariant_witness :
    (calculate_metrics [sampleOk 10, sampleErr, sampleOk 20] 1).successful =
      (calculate_metrics [sampleErr, sampleOk 10, sampleOk 20] 1).successful ∧
    (calculate_metrics [sampleOk 10, sampleErr, sampleOk 20] 1).failed =
      (calculate_metrics [sampleErr, sampleOk 10, sampleOk 20] 1).failed ∧
    (calculate_metrics [sampleOk 10, sampleErr, sampleOk 20] 1).total_rows =
      (calculate_metrics [sampleErr, sampleOk 10, sampleOk 20] 1).total_rows ∧
    (calculate_metrics [sampleOk 10, sampleErr, sampleOk 20] 1).total_bytes =
      (calculate_metrics [sampleErr, sampleOk 10, sampleOk 20] 1).total_bytes ∧
    (calculate_metrics [sampleOk 10, sampleErr, sampleOk 20] 1).avg_latency_ms =
      (calculate_metrics [sampleErr, sampleOk 10, sampleOk 20] 1).avg_latency_ms ∧
    (calculate_metrics [sampleOk 10, sampleErr, sampleOk 20] 1).p95_latency_ms =
      (calculate_metrics [sampleErr, sampleOk 10, sampleOk 20] 1).p95_latency_ms :=
  finalize_perm_invariant [sampleOk 10, sampleErr, sampleOk 20]
    [sampleErr, sampleOk 10, sampleOk 20] 1 (List.Perm.swap _ _ _)

/-- C6: `calculate_metrics` is total, and on a collection with no successful
sample it returns zero successes, `failed` equal to the total, and zero-valued
latency, row and byte statistics instead of failing on the empty successful
set. -/
theorem finalize_all_failed (results : List QueryMetrics) (duration : ℚ)
    (h : ∀ r ∈ results, r.status ≠ "Success") :
    (calculate_metrics results duration).successful = 0 ∧
    (calculate_metrics results duration).failed =
      (calculate_metrics results duration).total_requests ∧
    (calculate_metrics results duration).total_requests = results.length ∧
    (calculate_metrics results duration).avg_latency_ms = 0 ∧
    (calculate_metrics results duration).p95_latency_ms = 0 ∧
    (calculate_metrics results duration).total_rows = 0 ∧
    (calculate_metrics results duration).total_bytes = 0 := by
  have hfil : results.filter (fun r => r.status == "Success") = [] :=
    List.filter_eq_nil_iff.mpr (by intro a ha; simpa using h a ha)
  have hfail : results.filter (fun r => r.status != "Success") = results :=
    List.filter_eq_self.mpr (by intro a ha; simpa using h a ha)
  simp [calculate_metrics, hfil, hfail]

/-- Witness for C6: a run of two samples that both failed. -/
theorem finalize_all_failed_witness :
    (calculate_metrics [sampleErr, sampleErr] 1).successful = 0 ∧
    (calculate_metrics [sampleErr, sampleErr] 1).failed =
      (calculate_metrics [sampleErr, sampleErr] 1).total_requests ∧
    (calculate_metrics [sampleErr, sampleErr] 1).total_requests =
      [sampleErr, sampleErr].length ∧
    (calculate_metrics [sampleErr, sampleErr] 1).avg_latency_ms = 0 ∧
    (calculate_metrics [sampleErr, sampleErr] 1).p95_latency_ms = 0 ∧
    (calculate_metrics [sampleErr, sampleErr] 1).total_rows = 0 ∧
    (calculate_metrics [sampleErr, sampleErr] 1).total_bytes = 0 :=
  finalize_all_failed [sampleErr, sampleErr] 1 (by decide)

/-- The ascending-sorted sequence of the successful samples' total latencies,
as built at src/load_tester.py line 82. -/
def successLatencies (results : List QueryMetrics) : List ℚ :=
  ((results.filter (fun r => r.status == "Success")).map
    (fun r => r.total_latency_ms)).insertionSort (· ≤ ·)

/-- The truncated percentile index agrees with the rational floor of
`(p_num / 100) * n`, the spec's `floor(p * n)`. -/
theorem percentileIndex_eq_floor (p_num n : ℕ) :
    percentileIndex p_num n = Nat.floor (((p_num : ℚ) / 100) * n) := by
  have h : ((p_num : ℚ) / 100) * n = ((p_num * n : ℕ) : ℚ) / ((100 : ℕ) : ℚ) := by
    push_cast
    ring
  rw [h, Rat.natFloor_natCast_div_natCast]
  simp [percentileIndex, Nat.mul_comm]

/-- C3: on a run with a non-empty successful set, `p95_latency_ms` is the
element at index `floor(0.95 * n)` of the ascending-sorted successful total
latencies and `avg_latency_ms` is their arithmetic mean; in particular for
successful latencies 10, 20, 30, 40, 50 ms the p95 is 50 and the average
is 30. -/
theorem p95_avg_formula (results : List QueryMetrics) (duration : ℚ)
    (h : results.filter (fun r => r.status == "Success") ≠ []) :
    (calculate_metrics results duration).p95_latency_ms =
      (successLatencies results).getD
        (Nat.floor ((0.95 : ℚ) * (successLatencies results).length)) 0 ∧
    (calculate_metrics results duration).avg_latency_ms =
      (successLatencies results).sum / ((successLatencies results).length : ℚ) ∧
    (calculate_metrics [sampleOk 30, sampleOk 10, sampleOk 50, sampleOk 20, sampleOk 40]
      1).p95_latency_ms = 50 ∧
    (calculate_metrics [sampleOk 30, sampleOk 10, sampleOk 50, sampleOk 20, sampleOk 40]
      1).avg_latency_ms = 30 := by
  have hlen : (successLatencies results).length =
      (results.filter (fun r => r.status == "Success")).length := by
    simp [successLatencies]
  have hne : (successLatencies results).isEmpty = false := by
    rw [List.isEmpty_eq_false]
    intro hnil
    exact h (by
      have := hlen.symm.trans (congrArg List.length hnil)
      simpa using List.eq_nil_of_length_eq_zero this)
  have hfloor : Nat.floor ((0.95 : ℚ) * (successLatencies results).length) =
      percentileIndex 95 (successLatencies results).length := by
    rw [percentileIndex_eq_floor]
    norm_num
  refine ⟨?_, ?_,
    by norm_num [calculate_metrics, sampleOk, query_dataset, percentileIndex,
      List.insertionSort, List.orderedInsert],
    by norm_num [calculate_metrics, sampleOk, query_dataset,
      List.insertionSort, List.orderedInsert]⟩
  · have hproj : (calculate_metrics results duration).p95_latency_ms =
        if (successLatencies results).isEmpty then 0
        else (successLatencies results).getD
          (percentileIndex 95 (successLatencies results).length) 0 := rfl
    rw [hproj, hne, ← hfloor]
    simp
  · have hproj : (calculate_metrics results duration).avg_latency_ms =
        if (successLatencies results).isEmpty then 0
        else (successLatencies results).sum / ((successLatencies results).length : ℚ) := rfl
    rw [hproj, hne]
    simp

/-- Witness for C3: the five-sample run itself has a non-empty successful
set, so the general formula applies to it. -/
theorem p95_avg_formula_witness :
    (calculate_metrics [sampleOk 30, sampleOk 10, sampleOk 50, sampleOk 20, sampleOk 40]
        1).p95_latency_ms =
      (successLatencies [sampleOk 30, sampleOk 10, sampleOk 50, sampleOk 20, sampleOk 40]).getD
        (Nat.floor ((0.95 : ℚ) *
          (successLatencies
            [sampleOk 30, sampleOk 10, sampleOk 50, sampleOk 20, sampleOk 40]).length)) 0 ∧
    (calculate_metrics [sampleOk 30, sampleOk 10, sampleOk 50, sampleOk 20, sampleOk 40]
        1).avg_latency_ms =
      (successLatencies [sampleOk 30, sampleOk 10, sampleOk 50, sampleOk 20, sampleOk 40]).sum /
        ((successLatencies
          [sampleOk 30, sampleOk 10, sampleOk 50, sampleOk 20, sampleOk 40]).length : ℚ) ∧
    (calculate_metrics [sampleOk 30, sampleOk 10, sampleOk 50, sampleOk 20, sampleOk 40]
      1).p95_latency_ms = 50 ∧
    (calculate_metrics [sampleOk 30, sampleOk 10, sampleOk 50, sampleOk 20, sampleOk 40]
      1).avg_latency_ms = 30 :=
  p95_avg_formula [sampleOk 30, sampleOk 10, sampleOk 50, sampleOk 20, sampleOk 40] 1
    (by decide)

/-- C7: one `query_dataset` invocation always returns a sample and never lets
an exception propagate: on every backend failure the sample's status is the
failure status counted as failed by `calculate_metrics` (`status != "Success"`)
and its error field carries the backend's error string; on success the status
is `"Success"` with no error. -/
theorem query_dataset_never_raises (tenant_id dataset : String) (b : BackendBehavior) :
    (query_dataset tenant_id dataset b).status =
      (if b.isFailure then "Error" else "Success") ∧
    (query_dataset tenant_id dataset b).error = b.errorMsg ∧
    ((query_dataset tenant_id dataset b).status != "Success") = b.isFailure := by
  cases b <;>
    simp [query_dataset, BackendBehavior.isFailure, BackendBehavior.errorMsg]

/-- C8: every sample returned by `query_dataset`, successful or failed,
satisfies `total_latency_ms = metadata_latency_ms + transfer_latency_ms`, and
the three latencies are non-negative whenever the phase timings delivered by
the monotonic clock are. -/
theorem sample_latency_invariant (tenant_id dataset : String) (b : BackendBehavior)
    (h : b.wellTimed) :
    (query_dataset tenant_id dataset b).total_latency_ms =
      (query_dataset tenant_id dataset b).metadata_latency_ms +
        (query_dataset tenant_id dataset b).transfer_latency_ms ∧
    0 ≤ (query_dataset tenant_id dataset b).metadata_latency_ms ∧
    0 ≤ (query_dataset tenant_id dataset b).transfer_latency_ms ∧
    0 ≤ (query_dataset tenant_id dataset b).total_latency_ms := by
  cases b with
  | metaFail err => refine ⟨rfl, ?_, ?_, ?_⟩ <;> simp [query_dataset]
  | transferFail metaLat err =>
      simp only [BackendBehavior.wellTimed] at h
      refine ⟨rfl, ?_, ?_, ?_⟩ <;> simp [query_dataset] <;> linarith
  | ok metaLat transferLat rows bytes =>
      obtain ⟨h1, h2⟩ := h
      refine ⟨rfl, ?_, ?_, ?_⟩ <;> simp [query_dataset] <;> linarith

/-- Witness for C8 at a concrete successful behaviour with metadata latency 2
and transfer latency 3. -/
theorem sample_latency_invariant_witness :
    (query_dataset "t1" "sales" (BackendBehavior.ok 2 3 100 1000)).total_latency_ms =
      (query_dataset "t1" "sales" (BackendBehavior.ok 2 3 100 1000)).metadata_latency_ms +
        (query_dataset "t1" "sales" (BackendBehavior.ok 2 3 100 1000)).transfer_latency_ms ∧
    0 ≤ (query_dataset "t1" "sales" (BackendBehavior.ok 2 3 100 1000)).metadata_latency_ms ∧
    0 ≤ (query_dataset "t1" "sales" (BackendBehavior.ok 2 3 100 1000)).transfer_latency_ms ∧
    0 ≤ (query_dataset "t1" "sales" (BackendBehavior.ok 2 3 100 1000)).total_latency_ms :=
  sample_latency_invariant "t1" "sales" (BackendBehavior.ok 2 3 100 1000)
    (by constructor <;> norm_num)

/-- C10: although the code applies no explicit clamp, the truncated percentile
index is in bounds: for every non-empty latency list of length `n` and each of
the percentiles 0.90, 0.95 and 0.99, `percentileIndex` lands strictly below
`n`, so the list indexing in the statistics computation never goes out of
range. -/
theorem percentile_index_in_bounds (n : ℕ) (hn : 1 ≤ n) :
    percentileIndex 90 n < n ∧ percentileIndex 95 n < n ∧ percentileIndex 99 n < n := by
  refine ⟨?_, ?_, ?_⟩ <;> (simp only [percentileIndex]; omega)

/-- Witness for C10 at `n = 5`. -/
theorem percentile_index_in_bounds_witness :
    percentileIndex 90 5 < 5 ∧ percentileIndex 95 5 < 5 ∧ percentileIndex 99 5 < 5 :=
  percentile_index_in_bounds 5 (by decide)

/-- C2 counterexample: a gateway whose health probe reports it unreachable
does not stop the `load-test` CLI command: one unit is still dispatched and
recorded, and a completed zero-success aggregate — not a connectivity error —
is returned to the caller. -/
theorem cmd_load_test_ignores_health :
    check_health badGateway = false ∧
    cmd_load_test badGateway 1 ["t1"] "sales" 0 ≠ CliOutcome.connectivityError ∧
    dispatchCount (cmd_load_test badGateway 1 ["t1"] "sales" 0) = 1 ∧
    (run_load_test badGateway 1 ["t1"] "sales" 0).successful = 0 ∧
    (run_load_test badGateway 1 ["t1"] "sales" 0).failed = 1 :=
  ⟨rfl, by decide, by decide, by decide, by decide⟩

/-- An Enrutador whose health probe reports it unreachable and whose every
response is a connection error. -/
def badEnrutador : Enrutador :=
  { healthy := false,
    respond := fun _ _ =>
      { request_id := "", status := "error", error_message := some "connection refused" } }

/-- C2 amended: the src/load_test.py entry point gates the run on the health
probe — if the probe reports the backend unreachable, `main` reports a
connectivity error before dispatching any unit, so the aggregator receives no
record call — while the src/cli.py `load-test` command consults no health
probe and returns the completed run's aggregate regardless of what the probe
reports, with every dispatched unit recorded. -/
theorem health_probe_gate (e : Enrutador) (users reqs : ℕ) (he : e.healthy = false)
    (gw : Gateway) (n : ℕ) (tenants : List String) (ds : String) (d : ℚ)
    (hg : check_health gw = false) :
    load_test_main e users reqs = MainOutcome.connectivityError ∧
    cmd_load_test gw n tenants ds d =
      CliOutcome.completed (run_load_test gw n tenants ds d) ∧
    dispatchCount (cmd_load_test gw n tenants ds d) = n := by
  refine ⟨by simp [load_test_main, he], rfl, ?_⟩
  simp [cmd_load_test, dispatchCount, run_load_test, calculate_metrics]

/-- Witness for C2's amended claim at concrete unreachable backends. -/
theorem health_probe_gate_witness :
    load_test_main badEnrutador 3 2 = MainOutcome.connectivityError ∧
    cmd_load_test badGateway 2 ["t1"] "sales" 0 =
      CliOutcome.completed (run_load_test badGateway 2 ["t1"] "sales" 0) ∧
    dispatchCount (cmd_load_test badGateway 2 ["t1"] "sales" 0) = 2 :=
  health_probe_gate badEnrutador 3 2 rfl badGateway 2 ["t1"] "sales" 0 rfl
